import Mathlib

/-!
Shallow embedding of `src/main_adapter_rm.cc` from AdapterRemoval: the
per-record pipeline for single- and paired-end adapter removal, its
statistics accounting, and the run driver `remove_adapter_sequences`.

External collaborators (alignment, classification, quality trimming,
barcode trimming, collapsing, acceptability) live in other translation
units; they are modelled as opaque function-valued fields of `userconfig`,
exactly as the pipeline consumes them.  Input streams are modelled as
lists of parse results (`none` = a malformed record whose parse raises
`fastq_error`); output streams are lists of written records.
-/

namespace AdapterRm

/-- A FASTQ record as the pipeline observes it: header, bases, and
per-base quality scores (class `fastq` in fastq.h). -/
structure Fastq where
  header : String
  bases : List Char
  quals : List Nat
deriving DecidableEq, Repr

/-- Length of a record, `fastq::length()`: the number of bases. -/
def Fastq.length (r : Fastq) : Nat := r.bases.length

/-- Translation of `fastq::add_prefix_to_header`: prepend a marker to the
header line. -/
def Fastq.add_prefix_to_header (r : Fastq) (p : String) : Fastq :=
  { r with header := p ++ r.header }

/-- Result of the alignment engine (`alignment_info` in alignment.h). -/
structure alignment_info where
  adapter_id : Nat
  offset : Int
  score : Int
  length : Nat
  num_mismatches : Nat
deriving DecidableEq, Repr

/-- Three-way alignment classification (`userconfig::alignment_type`).
The enumeration itself is declared in userconfig.h; the pipeline in
main_adapter_rm.cc only branches on its three values. -/
inductive alignment_type where
  | valid_alignment
  | poor_alignment
  | not_aligned
deriving DecidableEq, Repr

/-- The run-wide statistics aggregate (`statistics` in userconfig.h),
holding exactly the counters main_adapter_rm.cc mutates and reports. -/
structure statistics where
  records : Nat
  number_of_full_length_collapsed : Nat
  number_of_truncated_collapsed : Nat
  total_number_of_nucleotides : Nat
  total_number_of_good_reads : Nat
  unaligned_reads : Nat
  well_aligned_reads : Nat
  poorly_aligned_reads : Nat
  keep1 : Nat
  discard1 : Nat
  keep2 : Nat
  discard2 : Nat
  number_of_reads_with_adapter : List Nat
  number_of_barcodes_trimmed : List Nat
deriving DecidableEq, Repr

/-- Fresh statistics, `userconfig::create_stats()`: every counter zero,
per-adapter and per-barcode vectors sized to the catalogs. -/
def statistics.init (nAdapters nBarcodes : Nat) : statistics :=
  { records := 0
    number_of_full_length_collapsed := 0
    number_of_truncated_collapsed := 0
    total_number_of_nucleotides := 0
    total_number_of_good_reads := 0
    unaligned_reads := 0
    well_aligned_reads := 0
    poorly_aligned_reads := 0
    keep1 := 0
    discard1 := 0
    keep2 := 0
    discard2 := 0
    number_of_reads_with_adapter := List.replicate nAdapters 0
    number_of_barcodes_trimmed := List.replicate nBarcodes 0 }

/-- Add `k` to entry `i` of a counter vector (the effect of
`vec.at(i) += k` on an in-range index). -/
def bump (l : List Nat) (i k : Nat) : List Nat := l.set i (l.getD i 0 + k)

/-- The configuration consumed by the pipeline (`userconfig`), with the
externally implemented collaborators as function fields:
`trim_barcodes_if_enabled` reports the trimmed barcode id if any;
`trim_sequence_by_quality_if_enabled` returns the record plus the
`fastq::ntrimmed` pair of bases removed from the two ends;
`align_*`, `evaluate_alignment`, `truncate_*`,
`collapse_paired_ended_sequences`, `is_acceptable_read`, and
`fastq::reverse_complement` are the remaining narrow contracts. -/
structure userconfig where
  paired_ended_mode : Bool
  collapse : Bool
  num_adapters : Nat
  num_barcodes : Nat
  trim_barcodes_if_enabled : Fastq → Fastq × Option Nat
  align_single_ended_sequence : Fastq → alignment_info
  align_paired_ended_sequences : Fastq → Fastq → alignment_info
  evaluate_alignment : alignment_info → alignment_type
  truncate_single_ended_sequence : alignment_info → Fastq → Fastq
  truncate_paired_ended_sequences : alignment_info → Fastq → Fastq → Fastq × Fastq × Nat
  collapse_paired_ended_sequences : alignment_info → Fastq → Fastq → Fastq
  trim_sequence_by_quality_if_enabled : Fastq → Fastq × (Nat × Nat)
  is_acceptable_read : Fastq → Bool
  reverse_complement : Fastq → Fastq

/-- Statistics side effect of `config.trim_barcodes_if_enabled(read, stats)`:
when a barcode was trimmed, its per-barcode counter is incremented. -/
def barcode_stat_update (st : statistics) (o : Option Nat) : statistics :=
  match o with
  | some i =>
      { st with number_of_barcodes_trimmed := bump st.number_of_barcodes_trimmed i 1 }
  | none => st

/-- The output streams a run writes records to, in write order.
Single-end uses `output1` (".truncated") and `discarded`; paired-end
additionally uses `output2`, `singleton`, `collapsed` and
`collapsed_truncated`. -/
structure outputs where
  output1 : List Fastq
  output2 : List Fastq
  singleton : List Fastq
  collapsed : List Fastq
  collapsed_truncated : List Fastq
  discarded : List Fastq
deriving DecidableEq, Repr

def outputs.init : outputs := ⟨[], [], [], [], [], []⟩

/-- Ghost (specification-only) counters, not present in the source, used
to state accounting claims: `evals1`/`evals2` count evaluated units
attributed to the mate-1/mate-2 streams (a collapsed pair is one
evaluated unit for each stream); `evals_total` counts actual
`is_acceptable_read` decisions; `fails1`/`fails2` count evaluated units
whose stream-i component failed acceptability; `single1` counts
non-collapsed pairs where mate 1 passed and mate 2 failed, and
symmetrically `single2`. -/
structure ghost where
  evals1 : Nat
  evals2 : Nat
  evals_total : Nat
  fails1 : Nat
  fails2 : Nat
  single1 : Nat
  single2 : Nat
deriving DecidableEq, Repr

def ghost.init : ghost := ⟨0, 0, 0, 0, 0, 0, 0⟩

/-- State threaded through a processing loop: the statistics aggregate,
the output streams, and the ghost counters. -/
structure pstate where
  stats : statistics
  outs : outputs
  gh : ghost
deriving DecidableEq, Repr

def pstate.init (nAdapters nBarcodes : Nat) : pstate :=
  ⟨statistics.init nAdapters nBarcodes, outputs.init, ghost.init⟩

/-- Final accept-or-discard step of the single-end loop body, with the
acceptability decision (`config.is_acceptable_read(read)`) passed in as
the boolean the source binds it to. -/
def single_finish (read : Fastq) (acc : Bool) (stats : statistics) (st : pstate) : pstate :=
  let gh := { st.gh with
      evals1 := st.gh.evals1 + 1
      evals_total := st.gh.evals_total + 1
      fails1 := st.gh.fails1 + (if acc then 0 else 1) }
  if acc then
    { stats := { stats with
        keep1 := stats.keep1 + 1
        total_number_of_good_reads := stats.total_number_of_good_reads + 1
        total_number_of_nucleotides := stats.total_number_of_nucleotides + read.length }
      outs := { st.outs with output1 := st.outs.output1 ++ [read] }
      gh := gh }
  else
    { stats := { stats with discard1 := stats.discard1 + 1 }
      outs := { st.outs with discarded := st.outs.discarded ++ [read] }
      gh := gh }

/-- Loop body of `process_single_ended_reads` for one parsed record:
barcode trim, align against the adapter catalog, classify, truncate on a
valid alignment, quality trim, then accept (write to output1, count the
read and its post-trim length) or discard. -/
def process_single_record (cfg : userconfig) (read0 : Fastq) (st : pstate) : pstate :=
  let tb := cfg.trim_barcodes_if_enabled read0
  let read := tb.1
  let stats := barcode_stat_update st.stats tb.2
  let alignment := cfg.align_single_ended_sequence read
  let aln_type := cfg.evaluate_alignment alignment
  let step :=
    match aln_type with
    | alignment_type.valid_alignment =>
        (cfg.truncate_single_ended_sequence alignment read,
         { stats with
            number_of_reads_with_adapter :=
              bump stats.number_of_reads_with_adapter alignment.adapter_id 1
            well_aligned_reads := stats.well_aligned_reads + 1 })
    | alignment_type.poor_alignment =>
        (read, { stats with poorly_aligned_reads := stats.poorly_aligned_reads + 1 })
    | alignment_type.not_aligned =>
        (read, { stats with unaligned_reads := stats.unaligned_reads + 1 })
  let read := (cfg.trim_sequence_by_quality_if_enabled step.1).1
  single_finish read (cfg.is_acceptable_read read) step.2 st

/-- Final step of the collapse branch: bump the full-length or truncated
collapsed-pair counter per the marking, then accept the consensus into
the matching collapsed stream or write it to discard; on rejection both
per-mate discard counters are incremented.  The acceptability decision is
passed in as the boolean the source computes. -/
def collapse_finish (collapsed_read : Fastq) (was_trimed acc : Bool) (st : pstate) : pstate :=
  let stats :=
    if was_trimed then
      { st.stats with
          number_of_truncated_collapsed := st.stats.number_of_truncated_collapsed + 1 }
    else
      { st.stats with
          number_of_full_length_collapsed := st.stats.number_of_full_length_collapsed + 1 }
  let gh := { st.gh with
      evals1 := st.gh.evals1 + 1
      evals2 := st.gh.evals2 + 1
      evals_total := st.gh.evals_total + 1
      fails1 := st.gh.fails1 + (if acc then 0 else 1)
      fails2 := st.gh.fails2 + (if acc then 0 else 1) }
  if acc then
    { stats := { stats with
        total_number_of_nucleotides :=
          stats.total_number_of_nucleotides + collapsed_read.length
        total_number_of_good_reads := stats.total_number_of_good_reads + 1 }
      outs :=
        if was_trimed then
          { st.outs with
              collapsed_truncated := st.outs.collapsed_truncated ++ [collapsed_read] }
        else
          { st.outs with collapsed := st.outs.collapsed ++ [collapsed_read] }
      gh := gh }
  else
    { stats := { stats with
        discard1 := stats.discard1 + 1
        discard2 := stats.discard2 + 1 }
      outs := { st.outs with discarded := st.outs.discarded ++ [collapsed_read] }
      gh := gh }

/-- The marked consensus record the collapse branch works with: the
quality-trimmed consensus, its header prefixed "MT_" when trimming
removed at least one base from either end and "M_" otherwise. -/
def marked_collapsed_read (cfg : userconfig) (alignment : alignment_info)
    (read1 read2 : Fastq) : Fastq × Bool :=
  let cp := cfg.collapse_paired_ended_sequences alignment read1 read2
  let tq := cfg.trim_sequence_by_quality_if_enabled cp
  let trimmed := tq.2
  let was_trimed : Bool := decide (trimmed.1 ≠ 0) || decide (trimmed.2 ≠ 0)
  if was_trimed then (tq.1.add_prefix_to_header "MT_", true)
  else (tq.1.add_prefix_to_header "M_", false)

/-- The collapse branch of the paired-end loop body (`config.collapse`
enabled and the alignment valid): build the consensus, quality-trim it,
mark its header, then accept or discard it. -/
def collapse_branch (cfg : userconfig) (alignment : alignment_info)
    (read1 read2 : Fastq) (st : pstate) : pstate :=
  let m := marked_collapsed_read cfg alignment read1 read2
  collapse_finish m.1 m.2 (cfg.is_acceptable_read m.1) st

/-- Accounting and writing step shared by all non-collapsed paired-end
outcomes, with the two independent acceptability decisions passed in as
the booleans `read_1_acceptable`/`read_2_acceptable` the source binds:
update the retained totals (faithfully to the source, which gates BOTH
length additions on `read_1_acceptable`, line 303), then write both mates
to the pair streams, or split between singleton and discard. -/
def paired_finish (read1 read2 : Fastq) (a1 a2 : Bool) (st : pstate) : pstate :=
  let stats := { st.stats with
      total_number_of_nucleotides :=
        st.stats.total_number_of_nucleotides
          + (if a1 then read1.length else 0) + (if a1 then read2.length else 0)
      total_number_of_good_reads :=
        st.stats.total_number_of_good_reads
          + (if a1 then 1 else 0) + (if a2 then 1 else 0) }
  let gh := { st.gh with
      evals1 := st.gh.evals1 + 1
      evals2 := st.gh.evals2 + 1
      evals_total := st.gh.evals_total + 2
      fails1 := st.gh.fails1 + (if a1 then 0 else 1)
      fails2 := st.gh.fails2 + (if a2 then 0 else 1)
      single1 := st.gh.single1 + (if a1 && !a2 then 1 else 0)
      single2 := st.gh.single2 + (if a2 && !a1 then 1 else 0) }
  if a1 && a2 then
    { stats := stats
      outs := { st.outs with
          output1 := st.outs.output1 ++ [read1]
          output2 := st.outs.output2 ++ [read2] }
      gh := gh }
  else
    { stats := { stats with
        keep1 := stats.keep1 + (if a1 then 1 else 0)
        keep2 := stats.keep2 + (if a2 then 1 else 0)
        discard1 := stats.discard1 + (if a1 then 0 else 1)
        discard2 := stats.discard2 + (if a2 then 0 else 1) }
      outs := { st.outs with
          singleton := st.outs.singleton
            ++ (if a1 then [read1] else []) ++ (if a2 then [read2] else [])
          discarded := st.outs.discarded
            ++ (if a1 then [] else [read1]) ++ (if a2 then [] else [read2]) }
      gh := gh }

/-- Tail of the paired-end loop body when the pair was not collapsed
(unaligned, poor, or collapsing disabled): undo mate 2's reverse
complement, quality-trim both mates, evaluate acceptability of each
independently, then finish with `paired_finish`. -/
def paired_tail (cfg : userconfig) (read1 read2 : Fastq) (st : pstate) : pstate :=
  let read2 := cfg.reverse_complement read2
  let read1 := (cfg.trim_sequence_by_quality_if_enabled read1).1
  let read2 := (cfg.trim_sequence_by_quality_if_enabled read2).1
  paired_finish read1 read2 (cfg.is_acceptable_read read1) (cfg.is_acceptable_read read2) st

/-- Loop body of `process_paired_ended_reads` for one parsed pair:
barcode-trim mate 1, reverse-complement mate 2, align the mates against
each other, classify; on a valid alignment truncate both mates, count
removed adapters, and branch to collapse when enabled; otherwise fall
through to the per-mate tail. -/
def process_pair_record (cfg : userconfig) (read1_0 read2_0 : Fastq) (st : pstate) : pstate :=
  let tb := cfg.trim_barcodes_if_enabled read1_0
  let read1 := tb.1
  let stats := barcode_stat_update st.stats tb.2
  let read2 := cfg.reverse_complement read2_0
  let alignment := cfg.align_paired_ended_sequences read1 read2
  match cfg.evaluate_alignment alignment with
  | alignment_type.valid_alignment =>
      let stats := { stats with well_aligned_reads := stats.well_aligned_reads + 1 }
      let tp := cfg.truncate_paired_ended_sequences alignment read1 read2
      let stats := { stats with
          number_of_reads_with_adapter :=
            bump stats.number_of_reads_with_adapter alignment.adapter_id tp.2.2 }
      if cfg.collapse then
        collapse_branch cfg alignment tp.1 tp.2.1 { st with stats := stats }
      else
        paired_tail cfg tp.1 tp.2.1 { st with stats := stats }
  | alignment_type.poor_alignment =>
      paired_tail cfg read1 read2
        { st with stats :=
            { stats with poorly_aligned_reads := stats.poorly_aligned_reads + 1 } }
  | alignment_type.not_aligned =>
      paired_tail cfg read1 read2
        { st with stats :=
            { stats with unaligned_reads := stats.unaligned_reads + 1 } }

/-- A processing failure caught in a `process_*` function: the record
index reported to stderr (the value of `stats.records` at the throw) and
the `fastq_error` message. -/
structure run_error where
  records : Nat
  message : String
deriving DecidableEq, Repr

def unequal_count_message : String := "files contain unequal number of records"

def malformed_record_message : String := "malformed record"

/-- The read loop of `process_single_ended_reads`: stop cleanly on stream
exhaustion, abort on a malformed record, otherwise run the body and
increment `stats.records`. -/
def process_single_loop (cfg : userconfig) :
    List (Option Fastq) → pstate → Option run_error × pstate
  | [], st => (none, st)
  | none :: _, st => (some ⟨st.stats.records, malformed_record_message⟩, st)
  | some r :: t, st =>
      let st1 := process_single_record cfg r st
      process_single_loop cfg t
        { st1 with stats := { st1.stats with records := st1.stats.records + 1 } }

/-- The read loop of `process_paired_ended_reads`: both streams are read
in lock-step; if exactly one is exhausted the iteration throws the
unequal-record-count `fastq_error` (mate 1 is parsed first, so a
malformed mate-1 record aborts before mate 2 is considered); if both are
exhausted the loop ends cleanly; otherwise the body runs and
`stats.records` is incremented. -/
def process_paired_loop (cfg : userconfig) :
    List (Option Fastq) → List (Option Fastq) → pstate → Option run_error × pstate
  | [], [], st => (none, st)
  | [], none :: _, st => (some ⟨st.stats.records, malformed_record_message⟩, st)
  | [], some _ :: _, st => (some ⟨st.stats.records, unequal_count_message⟩, st)
  | none :: _, _, st => (some ⟨st.stats.records, malformed_record_message⟩, st)
  | some _ :: _, [], st => (some ⟨st.stats.records, unequal_count_message⟩, st)
  | some _ :: _, none :: _, st => (some ⟨st.stats.records, malformed_record_message⟩, st)
  | some r1 :: t1, some r2 :: t2, st =>
      let st1 := process_pair_record cfg r1 r2 st
      process_paired_loop cfg t1 t2
        { st1 with stats := { st1.stats with records := st1.stats.records + 1 } }

/-- `process_single_ended_reads`: fails up front when a stream cannot be
opened, then runs the loop; returns whether the pass succeeded together
with the final state. -/
def process_single_ended_reads (cfg : userconfig) (open_ok : Bool)
    (input : List (Option Fastq)) (stats0 : statistics) : Bool × pstate :=
  if open_ok then
    let r := process_single_loop cfg input ⟨stats0, outputs.init, ghost.init⟩
    (r.1.isNone, r.2)
  else (false, ⟨stats0, outputs.init, ghost.init⟩)

/-- `process_paired_ended_reads`: fails up front when a stream cannot be
opened, then runs the lock-step loop; returns whether the pass succeeded
together with the final state. -/
def process_paired_ended_reads (cfg : userconfig) (open_ok : Bool)
    (in1 in2 : List (Option Fastq)) (stats0 : statistics) : Bool × pstate :=
  if open_ok then
    let r := process_paired_loop cfg in1 in2 ⟨stats0, outputs.init, ghost.init⟩
    (r.1.isNone, r.2)
  else (false, ⟨stats0, outputs.init, ghost.init⟩)

/-- Success of the record-processing stage as `remove_adapter_sequences`
observes it. -/
def record_processing_ok (cfg : userconfig) (streams_open_ok : Bool)
    (in1 in2 : List (Option Fastq)) : Bool :=
  if cfg.paired_ended_mode then
    (process_paired_ended_reads cfg streams_open_ok in1 in2
      (statistics.init cfg.num_adapters cfg.num_barcodes)).1
  else
    (process_single_ended_reads cfg streams_open_ok in1
      (statistics.init cfg.num_adapters cfg.num_barcodes)).1

/-- The two blocks `remove_adapter_sequences` writes to the settings
stream: the echoed configuration (`write_settings`, flushed before any
record is read) and the final counters (`write_statistics`). -/
inductive settings_section where
  | settings_block
  | statistics_block
deriving DecidableEq, Repr

/-- Success/failure of the surrounding IO operations, which the source
observes through stream states and exceptions. -/
structure io_env where
  settings_open_ok : Bool
  settings_write_ok : Bool
  streams_open_ok : Bool
  statistics_write_ok : Bool
deriving DecidableEq, Repr

def io_env.all_ok : io_env := ⟨true, true, true, true⟩

/-- `remove_adapter_sequences`: open the settings stream, write and flush
the settings block, create fresh statistics, run the mode's processing
pass, then write the statistics block; the first failing stage returns
exit status 1, and only a fully successful run returns 0.  The result is
the exit status paired with the blocks present on the settings stream. -/
def remove_adapter_sequences (cfg : userconfig) (env : io_env)
    (in1 in2 : List (Option Fastq)) : Nat × List settings_section :=
  if env.settings_open_ok then
    if env.settings_write_ok then
      if record_processing_ok cfg env.streams_open_ok in1 in2 then
        if env.statistics_write_ok then
          (0, [settings_section.settings_block, settings_section.statistics_block])
        else (1, [settings_section.settings_block])
      else (1, [settings_section.settings_block])
    else (1, [])
  else (1, [])

/-- The average-retained-length line of `write_statistics`: the retained
nucleotide total divided by the retained read count, with the division
guarded by the truthiness test on `total_number_of_good_reads` (a zero
count reports 0 and the division is not evaluated). -/
def write_statistics_average (stats : statistics) : ℚ :=
  if stats.total_number_of_good_reads ≠ 0 then
    (stats.total_number_of_nucleotides : ℚ) / (stats.total_number_of_good_reads : ℚ)
  else 0

/-- Sum of the three per-alignment-class counters. -/
def class_sum (s : statistics) : Nat :=
  s.unaligned_reads + s.well_aligned_reads + s.poorly_aligned_reads

/-- Accounting invariant relating the source's keep/discard counters to
the ghost counters: each per-mate discard counter counts exactly the
evaluated units whose stream component failed acceptability, and each
per-mate keep counter counts exactly the non-collapsed pairs where that
mate passed while the other failed. -/
def account_inv (st : pstate) : Prop :=
  st.stats.discard1 = st.gh.fails1 ∧ st.stats.keep1 = st.gh.single1 ∧
  st.stats.discard2 = st.gh.fails2 ∧ st.stats.keep2 = st.gh.single2

/-- Mate 1 as the paired-end body aligns it: after barcode trimming. -/
def pair_mate1 (cfg : userconfig) (r1 : Fastq) : Fastq :=
  (cfg.trim_barcodes_if_enabled r1).1

/-- Mate 2 as the paired-end body aligns it: reverse-complemented. -/
def pair_mate2 (cfg : userconfig) (r2 : Fastq) : Fastq :=
  cfg.reverse_complement r2

/-- The alignment the paired-end body computes for a pair. -/
def pair_alignment (cfg : userconfig) (r1 r2 : Fastq) : alignment_info :=
  cfg.align_paired_ended_sequences (pair_mate1 cfg r1) (pair_mate2 cfg r2)

/-- The truncation the body applies to a validly aligned pair. -/
def pair_truncated (cfg : userconfig) (r1 r2 : Fastq) : Fastq × Fastq × Nat :=
  cfg.truncate_paired_ended_sequences (pair_alignment cfg r1 r2)
    (pair_mate1 cfg r1) (pair_mate2 cfg r2)

/-- The marked consensus the collapse branch produces for a pair, with
its was-trimmed flag. -/
def pair_collapsed (cfg : userconfig) (r1 r2 : Fastq) : Fastq × Bool :=
  marked_collapsed_read cfg (pair_alignment cfg r1 r2)
    (pair_truncated cfg r1 r2).1 (pair_truncated cfg r1 r2).2.1

/-! ### Concrete configurations and records for evaluations -/

/-- Barcode trimming disabled: the record passes through unchanged. -/
def no_barcode (r : Fastq) : Fastq × Option Nat := (r, none)

/-- Quality trimming that removes nothing from either end. -/
def id_quality_trim (r : Fastq) : Fastq × (Nat × Nat) := (r, (0, 0))

def zero_alignment : alignment_info := ⟨0, 0, 0, 0, 0⟩

/-- A concrete paired-end, non-collapsing configuration: no barcode or
quality trimming, every alignment classified unaligned, a read acceptable
exactly when at least 2 bases long. -/
def cfg_base : userconfig :=
  { paired_ended_mode := true
    collapse := false
    num_adapters := 1
    num_barcodes := 0
    trim_barcodes_if_enabled := no_barcode
    align_single_ended_sequence := fun _ => zero_alignment
    align_paired_ended_sequences := fun _ _ => zero_alignment
    evaluate_alignment := fun _ => alignment_type.not_aligned
    truncate_single_ended_sequence := fun _ r => r
    truncate_paired_ended_sequences := fun _ r1 r2 => (r1, r2, 0)
    collapse_paired_ended_sequences := fun _ r1 _ => r1
    trim_sequence_by_quality_if_enabled := id_quality_trim
    is_acceptable_read := fun r => decide (2 ≤ r.length)
    reverse_complement := fun r => r }

/-- `cfg_base` with collapsing enabled and every alignment valid. -/
def cfg_collapse : userconfig :=
  { cfg_base with
    collapse := true
    evaluate_alignment := fun _ => alignment_type.valid_alignment }

/-- `cfg_collapse` with a quality trimmer that reports one base removed
from the start. -/
def cfg_collapse_trim : userconfig :=
  { cfg_collapse with
    trim_sequence_by_quality_if_enabled := fun r => (r, (1, 0)) }

/-- A one-base record: unacceptable under `cfg_base`'s length-2 rule. -/
def rec_a : Fastq := ⟨"r1", ['A'], [30]⟩

/-- A five-base record: acceptable under `cfg_base`'s length-2 rule. -/
def rec_b : Fastq := ⟨"r2", ['A', 'C', 'G', 'T', 'T'], [30, 30, 30, 30, 30]⟩

/-! ### Helper lemmas: which counters each step leaves untouched -/

@[simp] lemma barcode_stat_update_records (st : statistics) (o : Option Nat) :
    (barcode_stat_update st o).records = st.records := by cases o <;> rfl

@[simp] lemma barcode_stat_update_well (st : statistics) (o : Option Nat) :
    (barcode_stat_update st o).well_aligned_reads = st.well_aligned_reads := by
  cases o <;> rfl

@[simp] lemma barcode_stat_update_poor (st : statistics) (o : Option Nat) :
    (barcode_stat_update st o).poorly_aligned_reads = st.poorly_aligned_reads := by
  cases o <;> rfl

@[simp] lemma barcode_stat_update_unal (st : statistics) (o : Option Nat) :
    (barcode_stat_update st o).unaligned_reads = st.unaligned_reads := by
  cases o <;> rfl

@[simp] lemma barcode_stat_update_keep1 (st : statistics) (o : Option Nat) :
    (barcode_stat_update st o).keep1 = st.keep1 := by cases o <;> rfl

@[simp] lemma barcode_stat_update_keep2 (st : statistics) (o : Option Nat) :
    (barcode_stat_update st o).keep2 = st.keep2 := by cases o <;> rfl

@[simp] lemma barcode_stat_update_discard1 (st : statistics) (o : Option Nat) :
    (barcode_stat_update st o).discard1 = st.discard1 := by cases o <;> rfl

@[simp] lemma barcode_stat_update_discard2 (st : statistics) (o : Option Nat) :
    (barcode_stat_update st o).discard2 = st.discard2 := by cases o <;> rfl

@[simp] lemma paired_finish_records (r1 r2 : Fastq) (a1 a2 : Bool) (st : pstate) :
    (paired_finish r1 r2 a1 a2 st).stats.records = st.stats.records := by
  cases a1 <;> cases a2 <;> rfl

@[simp] lemma paired_finish_well (r1 r2 : Fastq) (a1 a2 : Bool) (st : pstate) :
    (paired_finish r1 r2 a1 a2 st).stats.well_aligned_reads = st.stats.well_aligned_reads := by
  cases a1 <;> cases a2 <;> rfl

@[simp] lemma paired_finish_poor (r1 r2 : Fastq) (a1 a2 : Bool) (st : pstate) :
    (paired_finish r1 r2 a1 a2 st).stats.poorly_aligned_reads = st.stats.poorly_aligned_reads := by
  cases a1 <;> cases a2 <;> rfl

@[simp] lemma paired_finish_unal (r1 r2 : Fastq) (a1 a2 : Bool) (st : pstate) :
    (paired_finish r1 r2 a1 a2 st).stats.unaligned_reads = st.stats.unaligned_reads := by
  cases a1 <;> cases a2 <;> rfl

@[simp] lemma collapse_finish_records (c : Fastq) (wt acc : Bool) (st : pstate) :
    (collapse_finish c wt acc st).stats.records = st.stats.records := by
  cases wt <;> cases acc <;> rfl

@[simp] lemma collapse_finish_well (c : Fastq) (wt acc : Bool) (st : pstate) :
    (collapse_finish c wt acc st).stats.well_aligned_reads = st.stats.well_aligned_reads := by
  cases wt <;> cases acc <;> rfl

@[simp] lemma collapse_finish_poor (c : Fastq) (wt acc : Bool) (st : pstate) :
    (collapse_finish c wt acc st).stats.poorly_aligned_reads = st.stats.poorly_aligned_reads := by
  cases wt <;> cases acc <;> rfl

@[simp] lemma collapse_finish_unal (c : Fastq) (wt acc : Bool) (st : pstate) :
    (collapse_finish c wt acc st).stats.unaligned_reads = st.stats.unaligned_reads := by
  cases wt <;> cases acc <;> rfl

@[simp] lemma paired_tail_records (cfg : userconfig) (r1 r2 : Fastq) (st : pstate) :
    (paired_tail cfg r1 r2 st).stats.records = st.stats.records :=
  paired_finish_records _ _ _ _ _

@[simp] lemma paired_tail_well (cfg : userconfig) (r1 r2 : Fastq) (st : pstate) :
    (paired_tail cfg r1 r2 st).stats.well_aligned_reads = st.stats.well_aligned_reads :=
  paired_finish_well _ _ _ _ _

@[simp] lemma paired_tail_poor (cfg : userconfig) (r1 r2 : Fastq) (st : pstate) :
    (paired_tail cfg r1 r2 st).stats.poorly_aligned_reads = st.stats.poorly_aligned_reads :=
  paired_finish_poor _ _ _ _ _

@[simp] lemma paired_tail_unal (cfg : userconfig) (r1 r2 : Fastq) (st : pstate) :
    (paired_tail cfg r1 r2 st).stats.unaligned_reads = st.stats.unaligned_reads :=
  paired_finish_unal _ _ _ _ _

@[simp] lemma collapse_branch_records (cfg : userconfig) (a : alignment_info)
    (r1 r2 : Fastq) (st : pstate) :
    (collapse_branch cfg a r1 r2 st).stats.records = st.stats.records :=
  collapse_finish_records _ _ _ _

@[simp] lemma collapse_branch_well (cfg : userconfig) (a : alignment_info)
    (r1 r2 : Fastq) (st : pstate) :
    (collapse_branch cfg a r1 r2 st).stats.well_aligned_reads = st.stats.well_aligned_reads :=
  collapse_finish_well _ _ _ _

@[simp] lemma collapse_branch_poor (cfg : userconfig) (a : alignment_info)
    (r1 r2 : Fastq) (st : pstate) :
    (collapse_branch cfg a r1 r2 st).stats.poorly_aligned_reads = st.stats.poorly_aligned_reads :=
  collapse_finish_poor _ _ _ _

@[simp] lemma collapse_branch_unal (cfg : userconfig) (a : alignment_info)
    (r1 r2 : Fastq) (st : pstate) :
    (collapse_branch cfg a r1 r2 st).stats.unaligned_reads = st.stats.unaligned_reads :=
  collapse_finish_unal _ _ _ _

@[simp] lemma single_finish_records (r : Fastq) (acc : Bool) (stats : statistics) (st : pstate) :
    (single_finish r acc stats st).stats.records = stats.records := by
  cases acc <;> rfl

@[simp] lemma single_finish_well (r : Fastq) (acc : Bool) (stats : statistics) (st : pstate) :
    (single_finish r acc stats st).stats.well_aligned_reads = stats.well_aligned_reads := by
  cases acc <;> rfl

@[simp] lemma single_finish_poor (r : Fastq) (acc : Bool) (stats : statistics) (st : pstate) :
    (single_finish r acc stats st).stats.poorly_aligned_reads = stats.poorly_aligned_reads := by
  cases acc <;> rfl

@[simp] lemma single_finish_unal (r : Fastq) (acc : Bool) (stats : statistics) (st : pstate) :
    (single_finish r acc stats st).stats.unaligned_reads = stats.unaligned_reads := by
  cases acc <;> rfl

lemma process_pair_record_records (cfg : userconfig) (r1 r2 : Fastq) (st : pstate) :
    (process_pair_record cfg r1 r2 st).stats.records = st.stats.records := by
  simp only [process_pair_record]
  split <;> [skip; simp; simp]
  split <;> simp

lemma process_single_record_records (cfg : userconfig) (r : Fastq) (st : pstate) :
    (process_single_record cfg r st).stats.records = st.stats.records := by
  simp only [process_single_record, single_finish_records]
  split <;> simp

/-! ### Classification accounting -/

/-- Exactly one of the three class counters is incremented, exactly once,
by a paired-end loop body. -/
lemma process_pair_record_class (cfg : userconfig) (r1 r2 : Fastq) (st : pstate) :
    ((process_pair_record cfg r1 r2 st).stats.well_aligned_reads
        = st.stats.well_aligned_reads + 1 ∧
     (process_pair_record cfg r1 r2 st).stats.poorly_aligned_reads
        = st.stats.poorly_aligned_reads ∧
     (process_pair_record cfg r1 r2 st).stats.unaligned_reads
        = st.stats.unaligned_reads) ∨
    ((process_pair_record cfg r1 r2 st).stats.well_aligned_reads
        = st.stats.well_aligned_reads ∧
     (process_pair_record cfg r1 r2 st).stats.poorly_aligned_reads
        = st.stats.poorly_aligned_reads + 1 ∧
     (process_pair_record cfg r1 r2 st).stats.unaligned_reads
        = st.stats.unaligned_reads) ∨
    ((process_pair_record cfg r1 r2 st).stats.well_aligned_reads
        = st.stats.well_aligned_reads ∧
     (process_pair_record cfg r1 r2 st).stats.poorly_aligned_reads
        = st.stats.poorly_aligned_reads ∧
     (process_pair_record cfg r1 r2 st).stats.unaligned_reads
        = st.stats.unaligned_reads + 1) := by
  simp only [process_pair_record]
  split
  · left
    split <;> simp
  · right; left; simp
  · right; right; simp

/-- Exactly one of the three class counters is incremented, exactly once,
by a single-end loop body. -/
lemma process_single_record_class (cfg : userconfig) (r : Fastq) (st : pstate) :
    ((process_single_record cfg r st).stats.well_aligned_reads
        = st.stats.well_aligned_reads + 1 ∧
     (process_single_record cfg r st).stats.poorly_aligned_reads
        = st.stats.poorly_aligned_reads ∧
     (process_single_record cfg r st).stats.unaligned_reads
        = st.stats.unaligned_reads) ∨
    ((process_single_record cfg r st).stats.well_aligned_reads
        = st.stats.well_aligned_reads ∧
     (process_single_record cfg r st).stats.poorly_aligned_reads
        = st.stats.poorly_aligned_reads + 1 ∧
     (process_single_record cfg r st).stats.unaligned_reads
        = st.stats.unaligned_reads) ∨
    ((process_single_record cfg r st).stats.well_aligned_reads
        = st.stats.well_aligned_reads ∧
     (process_single_record cfg r st).stats.poorly_aligned_reads
        = st.stats.poorly_aligned_reads ∧
     (process_single_record cfg r st).stats.unaligned_reads
        = st.stats.unaligned_reads + 1) := by
  simp only [process_single_record, single_finish_well, single_finish_poor, single_finish_unal]
  split
  · left; simp
  · right; left; simp
  · right; right; simp

lemma process_pair_record_class_sum (cfg : userconfig) (r1 r2 : Fastq) (st : pstate) :
    class_sum (process_pair_record cfg r1 r2 st).stats = class_sum st.stats + 1 := by
  rcases process_pair_record_class cfg r1 r2 st with ⟨h1, h2, h3⟩ | ⟨h1, h2, h3⟩ | ⟨h1, h2, h3⟩ <;>
    simp [class_sum, h1, h2, h3] <;> omega

lemma process_single_record_class_sum (cfg : userconfig) (r : Fastq) (st : pstate) :
    class_sum (process_single_record cfg r st).stats = class_sum st.stats + 1 := by
  rcases process_single_record_class cfg r st with ⟨h1, h2, h3⟩ | ⟨h1, h2, h3⟩ | ⟨h1, h2, h3⟩ <;>
    simp [class_sum, h1, h2, h3] <;> omega

/-- Over a successful paired-end loop, the class counters together grow
exactly as fast as the record counter. -/
lemma process_paired_loop_class_sum (cfg : userconfig) :
    ∀ (in1 in2 : List (Option Fastq)) (st res : pstate),
      process_paired_loop cfg in1 in2 st = (none, res) →
      class_sum res.stats + st.stats.records = class_sum st.stats + res.stats.records := by
  intro in1
  induction in1 with
  | nil =>
      intro in2 st res h
      cases in2 with
      | nil =>
          simp only [process_paired_loop, Prod.mk.injEq] at h
          rw [h.2]
      | cons o t =>
          cases o <;> simp [process_paired_loop] at h
  | cons o1 t1 ih =>
      intro in2 st res h
      cases o1 with
      | none => simp [process_paired_loop] at h
      | some r1 =>
          cases in2 with
          | nil => simp [process_paired_loop] at h
          | cons o2 t2 =>
              cases o2 with
              | none => simp [process_paired_loop] at h
              | some r2 =>
                  simp only [process_paired_loop] at h
                  have hrec := ih t2 _ res h
                  have h1 := process_pair_record_class_sum cfg r1 r2 st
                  have h2 := process_pair_record_records cfg r1 r2 st
                  simp only [class_sum] at *
                  omega

/-- Over a successful single-end loop, the class counters together grow
exactly as fast as the record counter. -/
lemma process_single_loop_class_sum (cfg : userconfig) :
    ∀ (input : List (Option Fastq)) (st res : pstate),
      process_single_loop cfg input st = (none, res) →
      class_sum res.stats + st.stats.records = class_sum st.stats + res.stats.records := by
  intro input
  induction input with
  | nil =>
      intro st res h
      simp only [process_single_loop, Prod.mk.injEq] at h
      rw [h.2]
  | cons o t ih =>
      intro st res h
      cases o with
      | none => simp [process_single_loop] at h
      | some r =>
          simp only [process_single_loop] at h
          have hrec := ih _ res h
          have h1 := process_single_record_class_sum cfg r st
          have h2 := process_single_record_records cfg r st
          simp only [class_sum] at *
          omega

/-! ### Keep/discard accounting -/

lemma account_inv_paired_finish (r1 r2 : Fastq) (a1 a2 : Bool) (st : pstate)
    (h : account_inv st) : account_inv (paired_finish r1 r2 a1 a2 st) := by
  obtain ⟨h1, h2, h3, h4⟩ := h
  cases a1 <;> cases a2 <;>
    simp [paired_finish, account_inv, h1, h2, h3, h4]

lemma account_inv_collapse_finish (c : Fastq) (wt acc : Bool) (st : pstate)
    (h : account_inv st) : account_inv (collapse_finish c wt acc st) := by
  obtain ⟨h1, h2, h3, h4⟩ := h
  cases wt <;> cases acc <;>
    simp [collapse_finish, account_inv, h1, h2, h3, h4]

lemma account_inv_process_pair_record (cfg : userconfig) (r1 r2 : Fastq) (st : pstate)
    (h : account_inv st) : account_inv (process_pair_record cfg r1 r2 st) := by
  obtain ⟨h1, h2, h3, h4⟩ := h
  simp only [process_pair_record]
  split
  · split
    · exact account_inv_collapse_finish _ _ _ _ (by simp [account_inv, h1, h2, h3, h4])
    · exact account_inv_paired_finish _ _ _ _ _ (by simp [account_inv, h1, h2, h3, h4])
  · exact account_inv_paired_finish _ _ _ _ _ (by simp [account_inv, h1, h2, h3, h4])
  · exact account_inv_paired_finish _ _ _ _ _ (by simp [account_inv, h1, h2, h3, h4])

lemma account_inv_process_paired_loop (cfg : userconfig) :
    ∀ (in1 in2 : List (Option Fastq)) (st : pstate), account_inv st →
      account_inv (process_paired_loop cfg in1 in2 st).2 := by
  intro in1
  induction in1 with
  | nil =>
      intro in2 st h
      cases in2 with
      | nil => exact h
      | cons o t => cases o <;> exact h
  | cons o1 t1 ih =>
      intro in2 st h
      cases o1 with
      | none => exact h
      | some r1 =>
          cases in2 with
          | nil => exact h
          | cons o2 t2 =>
              cases o2 with
              | none => exact h
              | some r2 =>
                  have hb := account_inv_process_pair_record cfg r1 r2 st h
                  obtain ⟨h1, h2, h3, h4⟩ := hb
                  exact ih t2 _ ⟨h1, h2, h3, h4⟩

/-! ### Unequal record counts -/

lemma process_paired_loop_unequal (cfg : userconfig) :
    ∀ (l1 l2 : List Fastq) (st : pstate), l1.length ≠ l2.length →
      (process_paired_loop cfg (l1.map some) (l2.map some) st).1 =
        some ⟨st.stats.records + min l1.length l2.length, unequal_count_message⟩ := by
  intro l1
  induction l1 with
  | nil =>
      intro l2 st h
      cases l2 with
      | nil => exact absurd rfl h
      | cons r2 t2 => simp [process_paired_loop]
  | cons r1 t1 ih =>
      intro l2 st h
      cases l2 with
      | nil => simp [process_paired_loop]
      | cons r2 t2 =>
          have h' : t1.length ≠ t2.length := by
            simpa using h
          simp only [List.map_cons, process_paired_loop]
          rw [ih t2 _ h']
          have h2 := process_pair_record_records cfg r1 r2 st
          simp only [Option.some.injEq, run_error.mk.injEq, List.length_cons, and_true]
          omega

/-! ### Shape of the collapse branch -/

lemma collapse_finish_shape (c : Fastq) (wt acc : Bool) (st : pstate) :
    ((collapse_finish c wt acc st).outs =
        { st.outs with collapsed := st.outs.collapsed ++ [c] } ∨
     (collapse_finish c wt acc st).outs =
        { st.outs with collapsed_truncated := st.outs.collapsed_truncated ++ [c] } ∨
     (collapse_finish c wt acc st).outs =
        { st.outs with discarded := st.outs.discarded ++ [c] }) ∧
    (collapse_finish c wt acc st).gh.evals_total = st.gh.evals_total + 1 := by
  cases wt <;> cases acc
  · exact ⟨Or.inr (Or.inr rfl), rfl⟩
  · exact ⟨Or.inl rfl, rfl⟩
  · exact ⟨Or.inr (Or.inr rfl), rfl⟩
  · exact ⟨Or.inr (Or.inl rfl), rfl⟩

lemma collapse_finish_reject (c : Fastq) (wt : Bool) (st : pstate) :
    (collapse_finish c wt false st).stats.discard1 = st.stats.discard1 + 1 ∧
    (collapse_finish c wt false st).stats.discard2 = st.stats.discard2 + 1 ∧
    (collapse_finish c wt false st).outs =
      { st.outs with discarded := st.outs.discarded ++ [c] } := by
  cases wt <;> exact ⟨rfl, rfl, rfl⟩

/-! ### Claim theorems -/

/-- C1: evaluating the paired-end non-collapse path on a pair whose mate 1
fails and whose mate 2 passes the acceptability check: the run succeeds
and counts one retained read (mate 2, of length 5) but zero retained
nucleotides, because the source gates mate 2's length addition on mate
1's acceptability (line 303), so the retained-nucleotide total does not
equal the summed lengths of the retained reads. -/
theorem retained_nucleotides_follow_mate1_bug :
    (process_paired_ended_reads cfg_base true [some rec_a] [some rec_b]
        (statistics.init 1 0)).1 = true ∧
    cfg_base.is_acceptable_read rec_a = false ∧
    cfg_base.is_acceptable_read rec_b = true ∧
    rec_b.length = 5 ∧
    (process_paired_ended_reads cfg_base true [some rec_a] [some rec_b]
        (statistics.init 1 0)).2.stats.total_number_of_good_reads = 1 ∧
    (process_paired_ended_reads cfg_base true [some rec_a] [some rec_b]
        (statistics.init 1 0)).2.stats.total_number_of_nucleotides = 0 := by
  decide

/-- C2 counterexample: a single pair with both mates acceptable is
submitted to the acceptability decision (one evaluated mate-1 unit), yet
neither keep1 nor discard1 is incremented, so keep1 + discard1 = 0 falls
short of the one submitted unit. -/
theorem keep_discard_closure_counterexample :
    (process_paired_loop cfg_base [some rec_b] [some rec_b] (pstate.init 1 0)).1 = none ∧
    (process_paired_loop cfg_base [some rec_b] [some rec_b] (pstate.init 1 0)).2.gh.evals1 = 1 ∧
    (process_paired_loop cfg_base [some rec_b] [some rec_b]
        (pstate.init 1 0)).2.stats.keep1 = 0 ∧
    (process_paired_loop cfg_base [some rec_b] [some rec_b]
        (pstate.init 1 0)).2.stats.discard1 = 0 := by
  decide

/-- C2 (amended): for every paired-end processing pass started from fresh
statistics, discard_i counts exactly the evaluated units whose stream-i
component failed acceptability (mate i of a non-collapsed pair, or the
collapsed consensus) and keep_i counts exactly the non-collapsed pairs
where mate i passed while the other mate failed; units accepted in full
contribute to neither counter. -/
theorem keep_discard_singleton_accounting (cfg : userconfig) (open_ok : Bool)
    (in1 in2 : List (Option Fastq)) :
    account_inv (process_paired_ended_reads cfg open_ok in1 in2
      (statistics.init cfg.num_adapters cfg.num_barcodes)).2 := by
  unfold process_paired_ended_reads
  split
  · exact account_inv_process_paired_loop cfg in1 in2 _ ⟨rfl, rfl, rfl, rfl⟩
  · exact ⟨rfl, rfl, rfl, rfl⟩

/-- C4: `remove_adapter_sequences` returns 0 exactly when settings
opening, settings writing, record processing, and statistics writing all
succeed, and the statistics block reaches the settings stream exactly
when the status is 0. -/
theorem exit_status_all_or_nothing (cfg : userconfig) (env : io_env)
    (in1 in2 : List (Option Fastq)) :
    ((remove_adapter_sequences cfg env in1 in2).1 = 0 ↔
      env.settings_open_ok = true ∧ env.settings_write_ok = true ∧
      record_processing_ok cfg env.streams_open_ok in1 in2 = true ∧
      env.statistics_write_ok = true) ∧
    (settings_section.statistics_block ∈ (remove_adapter_sequences cfg env in1 in2).2 ↔
      (remove_adapter_sequences cfg env in1 in2).1 = 0) := by
  obtain ⟨a, b, c, d⟩ := env
  cases a <;> cases b <;> cases d <;>
    cases h : record_processing_ok cfg c in1 in2 <;>
      simp [remove_adapter_sequences, h]

/-- C8: the reported average retained length is
`total_number_of_nucleotides / total_number_of_good_reads` whenever the
retained-read count is non-zero (the denominator then being non-zero),
and is 0 when the retained-read count is zero. -/
theorem average_retained_length_guard (stats : statistics) :
    (stats.total_number_of_good_reads = 0 → write_statistics_average stats = 0) ∧
    (stats.total_number_of_good_reads ≠ 0 →
      ((stats.total_number_of_good_reads : ℚ) ≠ 0 ∧
       write_statistics_average stats * (stats.total_number_of_good_reads : ℚ) =
         (stats.total_number_of_nucleotides : ℚ))) := by
  constructor
  · intro h
    simp [write_statistics_average, h]
  · intro h
    have hq : (stats.total_number_of_good_reads : ℚ) ≠ 0 := Nat.cast_ne_zero.mpr h
    refine ⟨hq, ?_⟩
    rw [write_statistics_average, if_pos h, div_mul_cancel₀ _ hq]

/-- A statistics value with 2 retained reads and 5 retained nucleotides,
used to witness the guarded-division claim. -/
def stats_w : statistics :=
  { statistics.init 1 0 with
    total_number_of_good_reads := 2
    total_number_of_nucleotides := 5 }

/-- Witness for C8 at a zero and a non-zero retained-read count. -/
theorem average_retained_length_guard_witness :
    write_statistics_average (statistics.init 1 0) = 0 ∧
    ((stats_w.total_number_of_good_reads : ℚ) ≠ 0 ∧
     write_statistics_average stats_w * (stats_w.total_number_of_good_reads : ℚ) =
       (stats_w.total_number_of_nucleotides : ℚ)) :=
  ⟨(average_retained_length_guard (statistics.init 1 0)).1 rfl,
   (average_retained_length_guard stats_w).2 (by decide)⟩

/-- C10: when the settings stream opens and the settings block is written
successfully, any failure of the record-processing pass yields exit
status 1 with the settings block present on the settings stream and the
statistics block absent. -/
theorem settings_written_before_processing (cfg : userconfig) (env : io_env)
    (in1 in2 : List (Option Fastq))
    (h1 : env.settings_open_ok = true) (h2 : env.settings_write_ok = true)
    (h3 : record_processing_ok cfg env.streams_open_ok in1 in2 = false) :
    remove_adapter_sequences cfg env in1 in2 = (1, [settings_section.settings_block]) := by
  simp [remove_adapter_sequences, h1, h2, h3]

/-- Witness for C10: a paired run over streams of 1 and 0 records fails
during processing yet keeps the settings block. -/
theorem settings_written_before_processing_witness :
    remove_adapter_sequences cfg_base io_env.all_ok [some rec_b] [] =
      (1, [settings_section.settings_block]) :=
  settings_written_before_processing cfg_base io_env.all_ok [some rec_b] []
    rfl rfl (by decide)

/-- C3: with both inputs well-formed but of unequal record counts, the
paired loop raises the unequal-record-count error carrying the index of
the offending pair (min of the two lengths), the run exits with status 1,
and the statistics block is never written to the settings stream. -/
theorem unequal_record_counts_abort (cfg : userconfig) (l1 l2 : List Fastq)
    (hmode : cfg.paired_ended_mode = true) (hne : l1.length ≠ l2.length) :
    (process_paired_loop cfg (l1.map some) (l2.map some)
        (pstate.init cfg.num_adapters cfg.num_barcodes)).1 =
      some ⟨min l1.length l2.length, unequal_count_message⟩ ∧
    (process_paired_ended_reads cfg true (l1.map some) (l2.map some)
        (statistics.init cfg.num_adapters cfg.num_barcodes)).1 = false ∧
    (remove_adapter_sequences cfg io_env.all_ok (l1.map some) (l2.map some)).1 = 1 ∧
    settings_section.statistics_block ∉
      (remove_adapter_sequences cfg io_env.all_ok (l1.map some) (l2.map some)).2 := by
  have hloop := process_paired_loop_unequal cfg l1 l2
    (pstate.init cfg.num_adapters cfg.num_barcodes) hne
  have hfail : (process_paired_ended_reads cfg true (l1.map some) (l2.map some)
      (statistics.init cfg.num_adapters cfg.num_barcodes)).1 = false := by
    simp [process_paired_ended_reads, pstate.init] at hloop ⊢
    simp [hloop]
  have hproc : record_processing_ok cfg true (l1.map some) (l2.map some) = false := by
    simp [record_processing_ok, hmode, hfail]
  refine ⟨?_, hfail, ?_, ?_⟩
  · simpa [pstate.init, statistics.init] using hloop
  · simp [remove_adapter_sequences, io_env.all_ok, hproc]
  · simp [remove_adapter_sequences, io_env.all_ok, hproc]

/-- Witness for C3: 1 record against 0 records. -/
theorem unequal_record_counts_abort_witness :
    (process_paired_loop cfg_base ([rec_b].map some) (([] : List Fastq).map some)
        (pstate.init cfg_base.num_adapters cfg_base.num_barcodes)).1 =
      some ⟨min [rec_b].length ([] : List Fastq).length, unequal_count_message⟩ ∧
    (process_paired_ended_reads cfg_base true ([rec_b].map some)
        (([] : List Fastq).map some)
        (statistics.init cfg_base.num_adapters cfg_base.num_barcodes)).1 = false ∧
    (remove_adapter_sequences cfg_base io_env.all_ok ([rec_b].map some)
        (([] : List Fastq).map some)).1 = 1 ∧
    settings_section.statistics_block ∉
      (remove_adapter_sequences cfg_base io_env.all_ok ([rec_b].map some)
        (([] : List Fastq).map some)).2 :=
  unequal_record_counts_abort cfg_base [rec_b] [] rfl (by decide)

/-- C5: per completed iteration exactly one of the well-aligned, poorly
aligned, and unaligned counters is incremented, each exactly once (both
loop bodies), and at the end of a successful run their sum equals the
records counter (both modes). -/
theorem classification_exactly_once (cfg : userconfig)
    (in1 in2 inS : List (Option Fastq))
    (hP : (process_paired_loop cfg in1 in2
        (pstate.init cfg.num_adapters cfg.num_barcodes)).1 = none)
    (hS : (process_single_loop cfg inS
        (pstate.init cfg.num_adapters cfg.num_barcodes)).1 = none) :
    (∀ r1 r2 st,
      ((process_pair_record cfg r1 r2 st).stats.well_aligned_reads
          = st.stats.well_aligned_reads + 1 ∧
       (process_pair_record cfg r1 r2 st).stats.poorly_aligned_reads
          = st.stats.poorly_aligned_reads ∧
       (process_pair_record cfg r1 r2 st).stats.unaligned_reads
          = st.stats.unaligned_reads) ∨
      ((process_pair_record cfg r1 r2 st).stats.well_aligned_reads
          = st.stats.well_aligned_reads ∧
       (process_pair_record cfg r1 r2 st).stats.poorly_aligned_reads
          = st.stats.poorly_aligned_reads + 1 ∧
       (process_pair_record cfg r1 r2 st).stats.unaligned_reads
          = st.stats.unaligned_reads) ∨
      ((process_pair_record cfg r1 r2 st).stats.well_aligned_reads
          = st.stats.well_aligned_reads ∧
       (process_pair_record cfg r1 r2 st).stats.poorly_aligned_reads
          = st.stats.poorly_aligned_reads ∧
       (process_pair_record cfg r1 r2 st).stats.unaligned_reads
          = st.stats.unaligned_reads + 1)) ∧
    class_sum (process_paired_loop cfg in1 in2
        (pstate.init cfg.num_adapters cfg.num_barcodes)).2.stats =
      (process_paired_loop cfg in1 in2
        (pstate.init cfg.num_adapters cfg.num_barcodes)).2.stats.records ∧
    class_sum (process_single_loop cfg inS
        (pstate.init cfg.num_adapters cfg.num_barcodes)).2.stats =
      (process_single_loop cfg inS
        (pstate.init cfg.num_adapters cfg.num_barcodes)).2.stats.records := by
  refine ⟨fun r1 r2 st => process_pair_record_class cfg r1 r2 st, ?_, ?_⟩
  · have heq : process_paired_loop cfg in1 in2
        (pstate.init cfg.num_adapters cfg.num_barcodes) =
        (none, (process_paired_loop cfg in1 in2
          (pstate.init cfg.num_adapters cfg.num_barcodes)).2) := by
      rw [← hP]
    have h := process_paired_loop_class_sum cfg in1 in2
      (pstate.init cfg.num_adapters cfg.num_barcodes) _ heq
    have h0 : class_sum (pstate.init cfg.num_adapters cfg.num_barcodes).stats = 0 := rfl
    have h1 : (pstate.init cfg.num_adapters cfg.num_barcodes).stats.records = 0 := rfl
    omega
  · have heq : process_single_loop cfg inS
        (pstate.init cfg.num_adapters cfg.num_barcodes) =
        (none, (process_single_loop cfg inS
          (pstate.init cfg.num_adapters cfg.num_barcodes)).2) := by
      rw [← hS]
    have h := process_single_loop_class_sum cfg inS
      (pstate.init cfg.num_adapters cfg.num_barcodes) _ heq
    have h0 : class_sum (pstate.init cfg.num_adapters cfg.num_barcodes).stats = 0 := rfl
    have h1 : (pstate.init cfg.num_adapters cfg.num_barcodes).stats.records = 0 := rfl
    omega

/-- Witness for C5: one-pair paired run and one-record single run under
the concrete configuration. -/
theorem classification_exactly_once_witness :
    (∀ r1 r2 st,
      ((process_pair_record cfg_base r1 r2 st).stats.well_aligned_reads
          = st.stats.well_aligned_reads + 1 ∧
       (process_pair_record cfg_base r1 r2 st).stats.poorly_aligned_reads
          = st.stats.poorly_aligned_reads ∧
       (process_pair_record cfg_base r1 r2 st).stats.unaligned_reads
          = st.stats.unaligned_reads) ∨
      ((process_pair_record cfg_base r1 r2 st).stats.well_aligned_reads
          = st.stats.well_aligned_reads ∧
       (process_pair_record cfg_base r1 r2 st).stats.poorly_aligned_reads
          = st.stats.poorly_aligned_reads + 1 ∧
       (process_pair_record cfg_base r1 r2 st).stats.unaligned_reads
          = st.stats.unaligned_reads) ∨
      ((process_pair_record cfg_base r1 r2 st).stats.well_aligned_reads
          = st.stats.well_aligned_reads ∧
       (process_pair_record cfg_base r1 r2 st).stats.poorly_aligned_reads
          = st.stats.poorly_aligned_reads ∧
       (process_pair_record cfg_base r1 r2 st).stats.unaligned_reads
          = st.stats.unaligned_reads + 1)) ∧
    class_sum (process_paired_loop cfg_base [some rec_a] [some rec_b]
        (pstate.init cfg_base.num_adapters cfg_base.num_barcodes)).2.stats =
      (process_paired_loop cfg_base [some rec_a] [some rec_b]
        (pstate.init cfg_base.num_adapters cfg_base.num_barcodes)).2.stats.records ∧
    class_sum (process_single_loop cfg_base [some rec_a]
        (pstate.init cfg_base.num_adapters cfg_base.num_barcodes)).2.stats =
      (process_single_loop cfg_base [some rec_a]
        (pstate.init cfg_base.num_adapters cfg_base.num_barcodes)).2.stats.records :=
  classification_exactly_once cfg_base [some rec_a] [some rec_b] [some rec_a]
    (by decide) (by decide)

/-- C6: when collapsing is enabled and the alignment is classified valid,
the body takes the collapse branch: the per-mate and singleton streams
are untouched, exactly one record is written, to exactly one of the
collapsed, collapsed-truncated, or discarded streams, and exactly one
acceptability decision is made for the pair. -/
theorem collapse_branch_single_unit (cfg : userconfig) (r1 r2 : Fastq) (st : pstate)
    (hc : cfg.collapse = true)
    (hval : cfg.evaluate_alignment (pair_alignment cfg r1 r2) =
      alignment_type.valid_alignment) :
    ∃ c : Fastq,
      ((process_pair_record cfg r1 r2 st).outs =
          { st.outs with collapsed := st.outs.collapsed ++ [c] } ∨
       (process_pair_record cfg r1 r2 st).outs =
          { st.outs with collapsed_truncated := st.outs.collapsed_truncated ++ [c] } ∨
       (process_pair_record cfg r1 r2 st).outs =
          { st.outs with discarded := st.outs.discarded ++ [c] }) ∧
      (process_pair_record cfg r1 r2 st).gh.evals_total = st.gh.evals_total + 1 := by
  simp only [pair_alignment, pair_mate1, pair_mate2] at hval
  simp only [process_pair_record, hval, hc, if_true, collapse_branch]
  exact ⟨_, collapse_finish_shape _ _ _ _⟩

/-- Witness for C6 under the always-valid collapsing configuration. -/
theorem collapse_branch_single_unit_witness :
    ∃ c : Fastq,
      ((process_pair_record cfg_collapse rec_a rec_b (pstate.init 1 0)).outs =
          { (pstate.init 1 0).outs with
              collapsed := (pstate.init 1 0).outs.collapsed ++ [c] } ∨
       (process_pair_record cfg_collapse rec_a rec_b (pstate.init 1 0)).outs =
          { (pstate.init 1 0).outs with
              collapsed_truncated :=
                (pstate.init 1 0).outs.collapsed_truncated ++ [c] } ∨
       (process_pair_record cfg_collapse rec_a rec_b (pstate.init 1 0)).outs =
          { (pstate.init 1 0).outs with
              discarded := (pstate.init 1 0).outs.discarded ++ [c] }) ∧
      (process_pair_record cfg_collapse rec_a rec_b (pstate.init 1 0)).gh.evals_total =
        (pstate.init 1 0).gh.evals_total + 1 :=
  collapse_branch_single_unit cfg_collapse rec_a rec_b (pstate.init 1 0) rfl rfl

/-- C7: the collapse branch prefixes the consensus header with "M_"
exactly when quality trimming removed no bases from either end and with
"MT_" exactly when it removed at least one; an accepted "M_" consensus is
appended to the collapsed stream and an accepted "MT_" consensus to the
collapsed-truncated stream. -/
theorem collapsed_marker_routing (cfg : userconfig) (a : alignment_info)
    (r1 r2 : Fastq) (st : pstate) :
    ((cfg.trim_sequence_by_quality_if_enabled
        (cfg.collapse_paired_ended_sequences a r1 r2)).2 = (0, 0) →
      (marked_collapsed_read cfg a r1 r2).1 =
        ((cfg.trim_sequence_by_quality_if_enabled
            (cfg.collapse_paired_ended_sequences a r1 r2)).1).add_prefix_to_header "M_" ∧
      (marked_collapsed_read cfg a r1 r2).2 = false) ∧
    (((cfg.trim_sequence_by_quality_if_enabled
        (cfg.collapse_paired_ended_sequences a r1 r2)).2.1 ≠ 0 ∨
      (cfg.trim_sequence_by_quality_if_enabled
        (cfg.collapse_paired_ended_sequences a r1 r2)).2.2 ≠ 0) →
      (marked_collapsed_read cfg a r1 r2).1 =
        ((cfg.trim_sequence_by_quality_if_enabled
            (cfg.collapse_paired_ended_sequences a r1 r2)).1).add_prefix_to_header "MT_" ∧
      (marked_collapsed_read cfg a r1 r2).2 = true) ∧
    (cfg.is_acceptable_read (marked_collapsed_read cfg a r1 r2).1 = true →
      ((marked_collapsed_read cfg a r1 r2).2 = false →
        (collapse_branch cfg a r1 r2 st).outs.collapsed =
          st.outs.collapsed ++ [(marked_collapsed_read cfg a r1 r2).1] ∧
        (collapse_branch cfg a r1 r2 st).outs.collapsed_truncated =
          st.outs.collapsed_truncated) ∧
      ((marked_collapsed_read cfg a r1 r2).2 = true →
        (collapse_branch cfg a r1 r2 st).outs.collapsed_truncated =
          st.outs.collapsed_truncated ++ [(marked_collapsed_read cfg a r1 r2).1] ∧
        (collapse_branch cfg a r1 r2 st).outs.collapsed = st.outs.collapsed)) := by
  refine ⟨?_, ?_, ?_⟩
  · intro h
    simp [marked_collapsed_read, h]
  · intro h
    rcases h with h | h <;> simp [marked_collapsed_read, h]
  · intro hacc
    constructor
    · intro hwt
      simp [collapse_branch, hacc, hwt, collapse_finish]
    · intro hwt
      simp [collapse_branch, hacc, hwt, collapse_finish]

/-- Witness for C7: both markings, under the no-trim and one-base-trim
collapse configurations. -/
theorem collapsed_marker_routing_witness :
    ((marked_collapsed_read cfg_collapse zero_alignment rec_b rec_a).1 =
        ((cfg_collapse.trim_sequence_by_quality_if_enabled
            (cfg_collapse.collapse_paired_ended_sequences zero_alignment
              rec_b rec_a)).1).add_prefix_to_header "M_" ∧
     (marked_collapsed_read cfg_collapse zero_alignment rec_b rec_a).2 = false) ∧
    ((marked_collapsed_read cfg_collapse_trim zero_alignment rec_b rec_a).1 =
        ((cfg_collapse_trim.trim_sequence_by_quality_if_enabled
            (cfg_collapse_trim.collapse_paired_ended_sequences zero_alignment
              rec_b rec_a)).1).add_prefix_to_header "MT_" ∧
     (marked_collapsed_read cfg_collapse_trim zero_alignment rec_b rec_a).2 = true) ∧
    (collapse_branch cfg_collapse zero_alignment rec_b rec_a (pstate.init 1 0)).outs.collapsed =
      (pstate.init 1 0).outs.collapsed ++
        [(marked_collapsed_read cfg_collapse zero_alignment rec_b rec_a).1] :=
  ⟨(collapsed_marker_routing cfg_collapse zero_alignment rec_b rec_a (pstate.init 1 0)).1 rfl,
   (collapsed_marker_routing cfg_collapse_trim zero_alignment rec_b rec_a
      (pstate.init 1 0)).2.1 (Or.inl (by decide)),
   (((collapsed_marker_routing cfg_collapse zero_alignment rec_b rec_a
      (pstate.init 1 0)).2.2 (by decide)).1 (by decide)).1⟩

/-- C9: when the collapse branch's consensus fails the acceptability
check, discard1 and discard2 are each incremented by one and the single
consensus record is the only record written, to the discard stream. -/
theorem collapsed_reject_discards_both (cfg : userconfig) (r1 r2 : Fastq) (st : pstate)
    (hc : cfg.collapse = true)
    (hval : cfg.evaluate_alignment (pair_alignment cfg r1 r2) =
      alignment_type.valid_alignment)
    (hrej : cfg.is_acceptable_read (pair_collapsed cfg r1 r2).1 = false) :
    (process_pair_record cfg r1 r2 st).stats.discard1 = st.stats.discard1 + 1 ∧
    (process_pair_record cfg r1 r2 st).stats.discard2 = st.stats.discard2 + 1 ∧
    (process_pair_record cfg r1 r2 st).outs =
      { st.outs with
          discarded := st.outs.discarded ++ [(pair_collapsed cfg r1 r2).1] } := by
  simp only [pair_alignment, pair_mate1, pair_mate2] at hval
  simp only [pair_collapsed, pair_truncated, pair_alignment, pair_mate1, pair_mate2] at hrej
  simp only [process_pair_record, hval, hc, if_true, collapse_branch, hrej]
  refine ⟨?_, ?_, ?_⟩
  · rw [(collapse_finish_reject _ _ _).1]
    simp
  · rw [(collapse_finish_reject _ _ _).2.1]
    simp
  · rw [(collapse_finish_reject _ _ _).2.2]
    simp [pair_collapsed, pair_truncated, pair_alignment, pair_mate1, pair_mate2]

/-- Witness for C9: the collapsed consensus of a one-base mate 1 is too
short to be acceptable, so both discard counters advance and the
consensus lands on the discard stream. -/
theorem collapsed_reject_discards_both_witness :
    (process_pair_record cfg_collapse rec_a rec_b
        (pstate.init 1 0)).stats.discard1 = (pstate.init 1 0).stats.discard1 + 1 ∧
    (process_pair_record cfg_collapse rec_a rec_b
        (pstate.init 1 0)).stats.discard2 = (pstate.init 1 0).stats.discard2 + 1 ∧
    (process_pair_record cfg_collapse rec_a rec_b (pstate.init 1 0)).outs =
      { (pstate.init 1 0).outs with
          discarded := (pstate.init 1 0).outs.discarded ++
            [(pair_collapsed cfg_collapse rec_a rec_b).1] } :=
  collapsed_reject_discards_both cfg_collapse rec_a rec_b (pstate.init 1 0)
    rfl rfl (by decide)

end AdapterRm
